import Mathlib

/-!
Verification of the session/connection multiplexer and tool-dispatch layer of
the Playwright MCP / ElevenLabs browser-automation server.

The definitions below are a shallow embedding of the relevant source code:

* `src/unnamed/part_000` — `ElevenLabsHandler` (session map, clientTools
  handlers, the click strategy loop, the wait clamp, `closeSession`);
* `src/src/azureServer.ts` — the HTTP routes `/api/browser-action`,
  `/api/elevenlabs-tools`, `/api/mcp`, `/sse` and `/mcp`.

Machine reals (JavaScript numbers used for durations) are modelled as
rationals; fallible steps return `Except` or carry explicit outcome
constructors; maps are association lists keyed by strings, matching the
semantics of a JavaScript `Map` with no duplicate keys.
-/

namespace Mcp

/-! ### Association-list operations (JavaScript `Map` get and delete) -/

/-- Lookup in an association list keyed by strings, as `Map.get`. -/
def lookupAssoc {α : Type} : List (String × α) → String → Option α
  | [], _ => none
  | (k, v) :: rest, key => if k = key then some v else lookupAssoc rest key

/-- Removal from an association list keyed by strings, as `Map.delete`. -/
def removeAssoc {α : Type} : List (String × α) → String → List (String × α)
  | [], _ => []
  | (k, v) :: rest, key =>
    if k = key then removeAssoc rest key else (k, v) :: removeAssoc rest key

/-! ### Session-id resolution -/

/-- JavaScript `s || d` on an optional string: `d` is substituted when `s` is
absent or empty (both are falsy). Used by `request.sessionId || 'default'`
(part_000 line 172) and by `sessionId || req.ip` (azureServer.ts line 353). -/
def orElseStr (s : Option String) (d : String) : String :=
  match s with
  | none => d
  | some v => if v = "" then d else v

/-- Session key chosen by `ElevenLabsHandler.handleRequest`
(part_000 line 172): the given id, or the fixed identifier `default`. -/
def resolveSessionId (sid : Option String) : String :=
  orElseStr sid "default"

/-- Session id passed down by the `/api/browser-action` route
(azureServer.ts line 353): the id from the request body, or the requester
IP address when the body carries none. -/
def routeSessionId (bodySessionId : Option String) (ip : String) : String :=
  orElseStr bodySessionId ip

/-! ### ElevenLabsHandler context creation (part_000) -/

/-- State of an `ElevenLabsHandler`: the `contexts` map from session id to
context identifier (part_000 line 62), together with a counter of contexts
ever produced by `createContext` (part_000 lines 211-214).  The counter also
serves as the identifier of the next fresh context. -/
structure HandlerState where
  contexts : List (String × Nat)
  created : Nat
  deriving Repr, DecidableEq

/-- The session/context step of `ElevenLabsHandler.handleRequest`
(part_000 lines 172-178): resolve the session id; when the map already holds
a context for that key, reuse it; otherwise create a fresh context and store
it under the key.  Returns the updated state and the context used. -/
def handleRequestCtx (sid : Option String) (s : HandlerState) :
    HandlerState × Nat :=
  let key := resolveSessionId sid
  match lookupAssoc s.contexts key with
  | some c => (s, c)
  | none => (⟨(key, s.created) :: s.contexts, s.created + 1⟩, s.created)

/-- The context step of a clientTools handler produced by
`ElevenLabsHandler.getClientToolsConfig` (part_000 lines 80-103): every
invocation calls `this.createContext()` afresh (line 85); the new context is
never entered in the `contexts` map.  Returns the updated state and the
context the tool runs against. -/
def clientToolInvoke (s : HandlerState) : HandlerState × Nat :=
  (⟨s.contexts, s.created + 1⟩, s.created)

/-! ### Click strategy fallback (part_000 handleClick) -/

/-- Outcome of one element-resolution strategy for a fixed description on a
fixed page: how many elements the locator resolves to, and whether clicking
the first of them succeeds. -/
structure StrategyOutcome where
  matchCount : Nat
  clickOk : Bool
  deriving Repr, DecidableEq

/-- Playwright `locator.first().click()` as used by every strategy of
`handleClick` (part_000 lines 261-266): the call succeeds exactly when at
least one element is resolved and the click on the first match succeeds. -/
def strategySucceeds (o : StrategyOutcome) : Bool :=
  decide (1 ≤ o.matchCount) && o.clickOk

/-- Result of the no-reference click path of `handleClick`. -/
inductive ClickResult where
  | clicked (strategyIdx : Nat)
  | elementNotFound (description : String)
  deriving Repr, DecidableEq

/-- The strategy loop of `handleClick` (part_000 lines 269-279): try each
strategy in order and stop at the first success; when none succeeds, throw a
could-not-find error carrying the description (line 282).  `idx` is the
index of the head of the remaining list within the full strategy list. -/
def tryStrategiesFrom (description : String) (idx : Nat) :
    List StrategyOutcome → ClickResult
  | [] => .elementNotFound description
  | o :: rest =>
    if strategySucceeds o then .clicked idx
    else tryStrategiesFrom description (idx + 1) rest

/-- The strategy loop started at the head of the strategy list. -/
def tryStrategies (description : String) (l : List StrategyOutcome) :
    ClickResult :=
  tryStrategiesFrom description 0 l

/-- Number of strategies the loop of part_000 lines 270-279 actually invokes
before returning. -/
def invokedCount : List StrategyOutcome → Nat
  | [] => 0
  | o :: rest => if strategySucceeds o then 1 else 1 + invokedCount rest

/-- A page as observed by the six click strategies of `handleClick` for one
fixed element description. -/
structure ClickPage where
  roleButton : StrategyOutcome
  roleLink : StrategyOutcome
  byText : StrategyOutcome
  byLabel : StrategyOutcome
  ariaLabelSubstring : StrategyOutcome
  titleSubstring : StrategyOutcome
  deriving Repr, DecidableEq

/-- The fixed strategy order of `handleClick` (part_000 lines 260-267):
accessible-role button, accessible-role link, visible text, label,
aria-label substring, title substring. -/
def clickStrategyList (p : ClickPage) : List StrategyOutcome :=
  [p.roleButton, p.roleLink, p.byText, p.byLabel,
    p.ariaLabelSubstring, p.titleSubstring]

/-- `handleClick` with an element description and no `ref` parameter
(part_000 lines 259-283). -/
def handleClickNoRef (description : String) (p : ClickPage) : ClickResult :=
  tryStrategies description (clickStrategyList p)

/-- Strategy acceptance as the claim words it: the strategy resolves to
exactly one element and the click succeeds.  Stated from the claim, for
comparison with `strategySucceeds`, which is taken from the source. -/
def strategySucceedsSpec (o : StrategyOutcome) : Bool :=
  (o.matchCount == 1) && o.clickOk

/-- The strategy loop under the claim-side acceptance condition
`strategySucceedsSpec`. -/
def tryStrategiesSpecFrom (description : String) (idx : Nat) :
    List StrategyOutcome → ClickResult
  | [] => .elementNotFound description
  | o :: rest =>
    if strategySucceedsSpec o then .clicked idx
    else tryStrategiesSpecFrom description (idx + 1) rest

/-- The claim-side click handler: accepts a strategy only when it resolves
to exactly one element. -/
def handleClickNoRefSpec (description : String) (p : ClickPage) :
    ClickResult :=
  tryStrategiesSpecFrom description 0 (clickStrategyList p)

/-- A page on which the first strategy (accessible-role button) resolves two
elements, the first of which is clickable; every other strategy resolves
nothing. -/
def clickPageTwoButtons : ClickPage :=
  ⟨⟨2, true⟩, ⟨0, false⟩, ⟨0, false⟩, ⟨0, false⟩, ⟨0, false⟩, ⟨0, false⟩⟩

/-- A page on which the first strategy resolves nothing and the second
(accessible-role link) resolves one clickable element. -/
def clickPageLinkOnly : ClickPage :=
  ⟨⟨0, false⟩, ⟨1, true⟩, ⟨0, false⟩, ⟨0, false⟩, ⟨0, false⟩, ⟨0, false⟩⟩

/-! ### Transport routes (azureServer.ts /sse and /mcp) -/

/-- HTTP request method, as far as the two transport routes inspect it. -/
inductive HttpMethod where
  | get
  | post
  | delete
  | other
  deriving Repr, DecidableEq

/-- Outcome of the `/sse` route handler `handleSSE`
(azureServer.ts lines 555-589). -/
inductive SseOutcome where
  | missingSessionId400
  | sessionNotFound404
  | postDelegated (sessionId : String)
  | sseSessionStarted (sessionId : String)
  | methodNotAllowed405
  deriving Repr, DecidableEq

/-- `handleSSE` (azureServer.ts lines 555-589): a POST must carry a
`sessionId` query parameter naming a registered SSE session (400 when the
parameter is missing, 404 when the id is unknown, otherwise the message is
delegated to the matching transport); a GET creates a new transport whose
generated id is registered in `sseSessions`.  `sessions` is the key set of
the `sseSessions` map and `freshId` stands for the id the new transport
generates.  Returns the outcome and the updated key set. -/
def handleSSE (method : HttpMethod) (sessionIdParam : Option String)
    (sessions : List String) (freshId : String) :
    SseOutcome × List String :=
  match method with
  | .post =>
    match sessionIdParam with
    | none => (.missingSessionId400, sessions)
    | some sid =>
      if sessions.contains sid then (.postDelegated sid, sessions)
      else (.sessionNotFound404, sessions)
  | .get => (.sseSessionStarted freshId, freshId :: sessions)
  | _ => (.methodNotAllowed405, sessions)

/-- Outcome of the `/mcp` route (azureServer.ts lines 603-718). -/
inductive McpOutcome where
  | initializeTools (tools : List String)
  | sessionNotFound404
  | delegated (sessionId : String)
  | newTransportStarted (sessionId : String)
  | invalidRequest400
  deriving Repr, DecidableEq

/-- The `/mcp` route (azureServer.ts lines 603-718), assuming the server is
initialized and its tool list is well formed.  A POST whose body method is
`initialize` is answered immediately with the formatted tool list (lines
614-681), before any session handling.  Otherwise a request carrying an
`mcp-session-id` header is delegated to the matching registered transport,
or answered 404 when the id is unknown (lines 685-693).  Otherwise a POST
creates a new `StreamableHTTPServerTransport` whose generated session id is
registered by the `onsessioninitialized` callback (lines 695-710); any other
request is answered 400 (line 713).  `sessions` is the key set of
`streamableSessions`; `freshId` stands for `crypto.randomUUID()`.  Returns
the outcome and the updated key set. -/
def mcpRoute (method : HttpMethod) (bodyMethod : Option String)
    (header : Option String) (serverTools : List String)
    (sessions : List String) (freshId : String) :
    McpOutcome × List String :=
  if method = .post ∧ bodyMethod = some "initialize" then
    (.initializeTools serverTools, sessions)
  else
    match header with
    | some sid =>
      if sessions.contains sid then (.delegated sid, sessions)
      else (.sessionNotFound404, sessions)
    | none =>
      if method = .post then
        (.newTransportStarted freshId, freshId :: sessions)
      else (.invalidRequest400, sessions)

/-! ### Initialize responses (azureServer.ts) -/

/-- Body of an initialize response, reduced to the fields the two routes
emit: the fixed protocol payload shape of `/api/elevenlabs-tools`, or the
bare tool listing of `/mcp`. -/
inductive InitializeResult where
  | protocolInfo (protocolVersion : String) (capabilitiesTools : Bool)
      (serverName : String) (serverVersion : String)
  | toolsListing (tools : List String)
  deriving Repr, DecidableEq

/-- Whether an initialize response body carries a protocol version together
with the capabilities object and the server identity. -/
def hasProtocolVersion : InitializeResult → Bool
  | .protocolInfo _ _ _ _ => true
  | .toolsListing _ => false

/-- The `initialize` branch of `POST /api/elevenlabs-tools`
(azureServer.ts lines 421-437): a constant payload, independent of server
state and of how often initialize has been called; the `callCount` argument
records prior initialize calls and is visibly ignored. -/
def elevenLabsInitializeResult (_callCount : Nat) : InitializeResult :=
  .protocolInfo "2025-03-26" true "Playwright MCP Server" "1.0.0"

/-- The `initialize` branch of the `/mcp` route (azureServer.ts lines
614-681): the response result is the formatted tool list taken from the
server registry, with no protocol version, capabilities object or server
identity fields. -/
def mcpInitializeResult (serverTools : List String) : InitializeResult :=
  .toolsListing serverTools

/-! ### Method dispatch (azureServer.ts /api/mcp and /api/elevenlabs-tools) -/

/-- The reserved JSON-RPC internal/dispatch-failure error code used by the
routes of azureServer.ts (lines 411, 480, 508, 544). -/
def internalErrorCode : Int := -32603

/-- Outcome of the `POST /api/mcp` dispatch (azureServer.ts lines 516-549). -/
inductive ApiMcpOutcome where
  | delegatedToolsList
  | delegatedToolsCall
  | rpcError (code : Int) (message : String)
  deriving Repr, DecidableEq

/-- `POST /api/mcp` (azureServer.ts lines 516-549): `tools/list` and
`tools/call` are delegated to the server; any other method throws
`Unknown MCP method` (line 530), which the catch block (lines 538-548)
serializes as a JSON-RPC error object with code `-32603`. -/
def apiMcpDispatch (method : String) : ApiMcpOutcome :=
  if method = "tools/list" then .delegatedToolsList
  else if method = "tools/call" then .delegatedToolsCall
  else .rpcError (-32603) ("Unknown MCP method: " ++ method)

/-- Outcome of the `POST /api/elevenlabs-tools` method switch
(azureServer.ts lines 418-500). -/
inductive ElevenLabsToolsOutcome where
  | initializeResponse
  | toolsListResponse
  | toolsCallResponse
  | fallbackClientTools
  deriving Repr, DecidableEq

/-- The method switch of `POST /api/elevenlabs-tools` (azureServer.ts lines
420-500): `initialize`, `tools/list` and `tools/call` are handled; every
other method falls into the default branch (lines 487-499), which answers
with the clientTools configuration as a success payload. -/
def elevenLabsToolsDispatch (method : String) : ElevenLabsToolsOutcome :=
  if method = "initialize" then .initializeResponse
  else if method = "tools/list" then .toolsListResponse
  else if method = "tools/call" then .toolsCallResponse
  else .fallbackClientTools

/-! ### Tab accessors and action handlers (part_000, Context from the spec) -/

/-- Failure of a tab accessor. -/
inductive AutomationError where
  | noActiveTab
  deriving Repr, DecidableEq

/-- Modelled from the spec: the tab state of an `AutomationContext`.  The
`Context` class lives in `context.ts`, which is absent from the sources;
section 4.2 of the spec fixes its contract.  Tabs carry their creation
index; the head of the list is the current tab. -/
structure AutomationContext where
  tabs : List Nat
  deriving Repr, DecidableEq

/-- Modelled from the spec: `currentTabOrDie()` returns the current tab and
fails with `NoActiveTab` when none exists (spec section 4.2). -/
def currentTabOrDie (c : AutomationContext) : Except AutomationError Nat :=
  match c.tabs with
  | [] => .error .noActiveTab
  | t :: _ => .ok t

/-- Modelled from the spec: `ensureTab()` creates the browsing environment
and an initial tab when no tab exists, otherwise returns the current tab
(spec section 4.2). -/
def ensureTab (c : AutomationContext) : AutomationContext × Nat :=
  match c.tabs with
  | [] => (⟨[0]⟩, 0)
  | t :: _ => (c, t)

/-- The eight actions dispatched by `ElevenLabsHandler.handleRequest`
(part_000 lines 182-201). -/
inductive ElAction where
  | navigate
  | click
  | typeText
  | screenshot
  | extractText
  | waitFor
  | scroll
  | getPageInfo
  deriving Repr, DecidableEq

/-- The page-obtaining step shared by every handler that requires an
existing page: `context.currentTabOrDie()`, leaving the context unchanged. -/
def requirePage (c : AutomationContext) :
    Except AutomationError (AutomationContext × Nat) :=
  (currentTabOrDie c).map (fun t => (c, t))

/-- How each action handler obtains its page (part_000): `handleNavigate`
calls `context.ensureTab()` (line 221); every other handler calls
`context.currentTabOrDie()` (lines 252, 314, 358, 379, 401, 438 and 460).
Returns the updated context and the tab the handler operates on. -/
def actionTabStep (a : ElAction) (c : AutomationContext) :
    Except AutomationError (AutomationContext × Nat) :=
  match a with
  | .navigate => .ok (ensureTab c)
  | .click => requirePage c
  | .typeText => requirePage c
  | .screenshot => requirePage c
  | .extractText => requirePage c
  | .waitFor => requirePage c
  | .scroll => requirePage c
  | .getPageInfo => requirePage c

/-! ### Wait clamp (part_000 handleWait) -/

/-- The timed sleep of `handleWait` (part_000 lines 408-410): when a
`time` parameter (in seconds) is supplied and nonzero, sleep for
`Math.min(30000, time * 1000)` milliseconds; a zero value is falsy in
JavaScript, so no timed sleep runs. -/
def waitSleepMs (time : ℚ) : ℚ :=
  if time = 0 then 0 else min 30000 (time * 1000)

/-! ### tools/call with an unknown tool (azureServer.ts lines 451-485) -/

/-- Reply of the `tools/call` branch of `POST /api/elevenlabs-tools`,
reduced to what the claim observes: the HTTP status (`res.json` replies
200 in both arms), whether the body carries a JSON-RPC error object, and
the error message when it does. -/
structure ToolsCallReply where
  httpStatus : Nat
  isErrorObject : Bool
  errorMessage : Option String
  deriving Repr, DecidableEq

/-- The `tools/call` branch of `POST /api/elevenlabs-tools`
(azureServer.ts lines 451-485) combined with the clientTools handler it
invokes (part_000 lines 80-103).  The clientTools record built by
`getClientToolsConfig` has one entry per registered tool name; an unknown
name throws `Tool ... not found` (line 458), caught at lines 475-484 and
serialized as a JSON-RPC error object in a 200 response.  A known name runs
the handler, which creates a fresh context (part_000 line 85). -/
def toolsCallBranch (registeredTools : List String) (name : String)
    (s : HandlerState) : ToolsCallReply × HandlerState :=
  if registeredTools.contains name then
    ((⟨200, false, none⟩ : ToolsCallReply), (clientToolInvoke s).1)
  else
    ((⟨200, true, some ("Tool " ++ name ++ " not found")⟩ : ToolsCallReply), s)

/-! ### Session teardown (part_000 closeSession) -/

/-- A tab as seen by `closeSession`: its identifier and whether
`tab.page.close()` throws (for instance because the page is already
closed). -/
structure TabModel where
  id : Nat
  closeFails : Bool
  deriving Repr, DecidableEq

/-- An automation context as seen by `closeSession`: its open tabs in order,
whether a browser context handle exists, and whether closing that handle
throws. -/
structure ContextModel where
  tabs : List TabModel
  hasBrowserCtx : Bool
  browserCloseFails : Bool
  deriving Repr, DecidableEq

/-- What one `closeSession` call did: the ids of the tabs actually closed,
whether the browser context was closed, and whether an error was caught and
logged. -/
structure CloseReport where
  closedTabs : List Nat
  browserClosed : Bool
  loggedError : Bool
  deriving Repr, DecidableEq

/-- The tab loop of `closeSession` (part_000 lines 486-488) under the
enclosing try/catch: tabs close in order until one close throws; a throw
aborts the loop.  Returns the ids of the tabs closed and whether a throw
occurred. -/
def closeTabsLoop : List TabModel → List Nat × Bool
  | [] => ([], false)
  | t :: rest =>
    if t.closeFails then ([], true)
    else
      let r := closeTabsLoop rest
      (t.id :: r.1, r.2)

/-- The try block of `closeSession` (part_000 lines 484-496): close every
tab, then the browser context when one exists (lines 490-493); any throw is
caught and logged (lines 494-496) and skips the remainder of the block. -/
def closeContextTry (ctx : ContextModel) : CloseReport :=
  let tl := closeTabsLoop ctx.tabs
  if tl.2 then ⟨tl.1, false, true⟩
  else if ctx.hasBrowserCtx then
    if ctx.browserCloseFails then ⟨tl.1, false, true⟩
    else ⟨tl.1, true, false⟩
  else ⟨tl.1, false, false⟩

/-- `ElevenLabsHandler.closeSession` (part_000 lines 481-501): when the id
is mapped, run the guarded close of the context and delete the map entry
unconditionally (line 498); when the id is unmapped, do nothing.  The
function always returns normally. -/
def closeSession (sessionId : String) (m : List (String × ContextModel)) :
    List (String × ContextModel) × CloseReport :=
  match lookupAssoc m sessionId with
  | none => (m, ⟨[], false, false⟩)
  | some ctx => (removeAssoc m sessionId, closeContextTry ctx)

/-- A context whose single tab and browser context both close cleanly. -/
def ctxCleanClose : ContextModel :=
  ⟨[⟨0, false⟩], true, false⟩

/-- A context whose first tab throws on close while its second tab and its
browser context would close cleanly. -/
def ctxFailingTab : ContextModel :=
  ⟨[⟨0, true⟩, ⟨1, false⟩], true, false⟩

/-! ### Helper lemmas -/

/-- When every strategy of the list fails, the loop of `handleClick` falls
through to the could-not-find error, whatever the starting index. -/
theorem tryStrategiesFrom_allFail (d : String) :
    ∀ (l : List StrategyOutcome) (k : Nat),
      (∀ o ∈ l, strategySucceeds o = false) →
      tryStrategiesFrom d k l = .elementNotFound d := by
  intro l
  induction l with
  | nil => intro k _; rfl
  | cons a rest ih =>
    intro k h
    have ha : strategySucceeds a = false := h a (List.mem_cons_self a rest)
    simp only [tryStrategiesFrom, ha, Bool.false_eq_true, if_false]
    exact ih (k + 1) (fun o ho => h o (List.mem_cons_of_mem a ho))

/-- The loop of `handleClick` stops at the first succeeding strategy. -/
theorem tryStrategiesFrom_firstSuccess (d : String) (o : StrategyOutcome)
    (ho : strategySucceeds o = true) :
    ∀ (pre post : List StrategyOutcome) (k : Nat),
      (∀ x ∈ pre, strategySucceeds x = false) →
      tryStrategiesFrom d k (pre ++ o :: post) = .clicked (k + pre.length) := by
  intro pre
  induction pre with
  | nil =>
    intro post k _
    simp [tryStrategiesFrom, ho]
  | cons a rest ih =>
    intro post k h
    have ha : strategySucceeds a = false := h a (List.mem_cons_self a rest)
    simp only [List.cons_append, tryStrategiesFrom, ha, Bool.false_eq_true,
      if_false, List.length_cons, List.append_eq]
    rw [ih post (k + 1) (fun x hx => h x (List.mem_cons_of_mem a hx))]
    congr 1
    omega

/-- Up to the first succeeding strategy, the loop of `handleClick` invokes
exactly the failing prefix and the succeeding strategy itself. -/
theorem invokedCount_firstSuccess (o : StrategyOutcome)
    (ho : strategySucceeds o = true) :
    ∀ (pre post : List StrategyOutcome),
      (∀ x ∈ pre, strategySucceeds x = false) →
      invokedCount (pre ++ o :: post) = pre.length + 1 := by
  intro pre
  induction pre with
  | nil => intro post _; simp [invokedCount, ho]
  | cons a rest ih =>
    intro post h
    have ha : strategySucceeds a = false := h a (List.mem_cons_self a rest)
    simp only [List.cons_append, invokedCount, ha, Bool.false_eq_true,
      if_false, List.length_cons, List.append_eq]
    rw [ih post (fun x hx => h x (List.mem_cons_of_mem a hx))]
    omega

/-- Looking a key up after removing it finds nothing. -/
theorem lookupAssoc_removeAssoc {α : Type} (m : List (String × α))
    (key : String) : lookupAssoc (removeAssoc m key) key = none := by
  induction m with
  | nil => rfl
  | cons kv rest ih =>
    obtain ⟨k, v⟩ := kv
    by_cases h : k = key
    · simp [removeAssoc, h, ih]
    · simp [removeAssoc, lookupAssoc, h, ih]

/-- When no tab close throws, the tab loop of `closeSession` closes every
tab in order. -/
theorem closeTabsLoop_noFail :
    ∀ l : List TabModel, (∀ t ∈ l, t.closeFails = false) →
      closeTabsLoop l = (l.map TabModel.id, false) := by
  intro l
  induction l with
  | nil => intro _; rfl
  | cons t rest ih =>
    intro h
    have ht : t.closeFails = false := h t (List.mem_cons_self t rest)
    simp [closeTabsLoop, ht, ih (fun x hx => h x (List.mem_cons_of_mem t hx))]

/-! ### Claims -/

/-- C1 (counterexample). Starting from a fresh handler, one `handleRequest`
on session `default` creates context 0 and maps the session to it; a single
clientTools tool execution then creates a second context (the created
counter reaches 2) while session `default` already has one, and the map is
left untouched — against the claim that no tool-executing code path creates
a second context for a session that already has one. -/
theorem clientTools_creates_second_context :
    (clientToolInvoke (handleRequestCtx (some "default") ⟨[], 0⟩).1).1 =
      ⟨[("default", 0)], 2⟩ := by
  decide

/-- C1 (amended). The `handleRequest` path is lazy and reusing: a second
request on the same session returns the same context and leaves the state
unchanged.  The clientTools handlers, however, create a fresh context on
every invocation and never record it in the session map. -/
theorem context_reuse_amended :
    (∀ (sid : Option String) (s : HandlerState),
        handleRequestCtx sid (handleRequestCtx sid s).1 =
          handleRequestCtx sid s) ∧
    (∀ s : HandlerState,
        (clientToolInvoke s).1.created = s.created + 1 ∧
          (clientToolInvoke s).1.contexts = s.contexts) := by
  constructor
  · intro sid s
    unfold handleRequestCtx
    cases h : lookupAssoc s.contexts (resolveSessionId sid) with
    | some c => simp [h]
    | none => simp [h, lookupAssoc]
  · intro s
    exact ⟨rfl, rfl⟩

/-- C2 (counterexample). On a page where the accessible-role-button strategy
resolves two elements whose first is clickable, `handleClick` accepts that
strategy and clicks — although it did not resolve to exactly one element,
as the claim requires; the claim-side handler, which demands exactly one
match, instead reports the element as not found. -/
theorem click_accepts_multi_match :
    handleClickNoRef "Submit" clickPageTwoButtons = .clicked 0 ∧
      clickPageTwoButtons.roleButton.matchCount = 2 ∧
      handleClickNoRefSpec "Submit" clickPageTwoButtons =
        .elementNotFound "Submit" := by
  decide

/-- C2 (amended). For a click request with an element description and no
explicit reference, the handler tries the fixed ordered strategy list
(accessible-role button, accessible-role link, visible text, label,
aria-label substring, title substring) and accepts the first strategy that
resolves at least one element and whose click on the first match succeeds;
once a strategy succeeds no later strategy is invoked, and when every
strategy fails the handler fails with an element-not-found error carrying
the description. -/
theorem click_fallback_amended (d : String) (p : ClickPage) :
    (∀ (pre : List StrategyOutcome) (o : StrategyOutcome)
        (post : List StrategyOutcome),
        clickStrategyList p = pre ++ o :: post →
        (∀ x ∈ pre, strategySucceeds x = false) →
        strategySucceeds o = true →
        handleClickNoRef d p = .clicked pre.length ∧
          invokedCount (clickStrategyList p) = pre.length + 1) ∧
    ((∀ x ∈ clickStrategyList p, strategySucceeds x = false) →
        handleClickNoRef d p = .elementNotFound d) := by
  constructor
  · intro pre o post hdec hpre ho
    refine ⟨?_, ?_⟩
    · unfold handleClickNoRef tryStrategies
      rw [hdec]
      simpa using tryStrategiesFrom_firstSuccess d o ho pre post 0 hpre
    · rw [hdec]
      exact invokedCount_firstSuccess o ho pre post hpre
  · intro h
    exact tryStrategiesFrom_allFail d (clickStrategyList p) 0 h

/-- C2 (witness). On a page where only the accessible-role-link strategy
succeeds, the handler clicks via strategy index 1 after invoking exactly
two strategies. -/
theorem click_fallback_amended_witness :
    handleClickNoRef "More information" clickPageLinkOnly = .clicked 1 ∧
      invokedCount (clickStrategyList clickPageLinkOnly) = 2 :=
  (click_fallback_amended "More information" clickPageLinkOnly).1
    [⟨0, false⟩] ⟨1, true⟩ [⟨0, false⟩, ⟨0, false⟩, ⟨0, false⟩, ⟨0, false⟩]
    (by decide) (by decide) (by decide)

/-- C10. A request without a session id behaves exactly as a request with
session id `default`: `handleRequest` substitutes the fixed identifier
`default` for an absent id, and the `/api/browser-action` route substitutes
the requester IP address when the body carries no session id. -/
theorem default_session_substitution :
    (∀ s : HandlerState,
        handleRequestCtx none s = handleRequestCtx (some "default") s) ∧
    (∀ ip : String, routeSessionId none ip = ip) ∧
    resolveSessionId none = "default" := by
  refine ⟨fun s => ?_, fun ip => rfl, rfl⟩
  have h : resolveSessionId none = resolveSessionId (some "default") := by
    decide
  unfold handleRequestCtx
  rw [h]

/-- C3 (counterexample). A Streamable-kind POST whose body method is
`initialize` and whose `mcp-session-id` header carries the unregistered id
`S2` is answered with the formatted tool list, not with a 404: the
initialize branch of the `/mcp` route runs before any session check. -/
theorem initialize_bypasses_session_check :
    mcpRoute .post (some "initialize") (some "S2") ["browser_navigate"] []
        "F" =
      (.initializeTools ["browser_navigate"], []) := by
  decide

/-- C3 (amended). An SSE-kind POST whose `sessionId` query parameter is not
registered returns 404; a Streamable-kind request whose `mcp-session-id`
header is not registered returns 404 unless it is a POST whose body method
is `initialize`, which is answered with the tool list before any session
check; and a Streamable-kind POST without the header and with a body method
other than `initialize` starts a new session whose generated id is
registered. -/
theorem unknown_session_404_amended :
    (∀ (sid freshId : String) (sessions : List String),
        sid ∉ sessions →
        (handleSSE .post (some sid) sessions freshId).1 =
          .sessionNotFound404) ∧
    (∀ (method : HttpMethod) (bodyMethod : Option String) (sid : String)
        (tools sessions : List String) (freshId : String),
        ¬(method = .post ∧ bodyMethod = some "initialize") →
        sid ∉ sessions →
        (mcpRoute method bodyMethod (some sid) tools sessions freshId).1 =
          .sessionNotFound404) ∧
    (∀ (bodyMethod : Option String) (tools sessions : List String)
        (freshId : String),
        bodyMethod ≠ some "initialize" →
        mcpRoute .post bodyMethod none tools sessions freshId =
          (.newTransportStarted freshId, freshId :: sessions)) := by
  refine ⟨?_, ?_, ?_⟩
  · intro sid freshId sessions h
    simp [handleSSE, h]
  · intro method bodyMethod sid tools sessions freshId hinit h
    simp [mcpRoute, hinit, h]
  · intro bodyMethod tools sessions freshId hinit
    simp [mcpRoute, hinit]

/-- C3 (witness). With only session `S1` registered: an SSE POST carrying
`S2` is answered 404; a Streamable `tools/call` POST carrying header `S2`
is answered 404; and a Streamable `tools/call` POST without a header starts
a new session under the generated id `F`. -/
theorem unknown_session_404_amended_witness :
    (handleSSE .post (some "S2") ["S1"] "F").1 = .sessionNotFound404 ∧
      (mcpRoute .post (some "tools/call") (some "S2") ["t"] ["S1"] "F").1 =
        .sessionNotFound404 ∧
      mcpRoute .post (some "tools/call") none ["t"] ["S1"] "F" =
        (.newTransportStarted "F", ["F", "S1"]) :=
  ⟨unknown_session_404_amended.1 "S2" "F" ["S1"] (by decide),
    unknown_session_404_amended.2.1 .post (some "tools/call") "S2" ["t"]
      ["S1"] "F" (by decide) (by decide),
    unknown_session_404_amended.2.2 (some "tools/call") ["t"] ["S1"] "F"
      (by decide)⟩

/-- C4 (counterexample). The initialize response of the `/mcp` route is the
bare tool listing: it carries no protocol version, no capabilities object
and no server identity, and differs from the fixed payload that the
`/api/elevenlabs-tools` route returns — against the claim that every
initialize response is that same fixed payload. -/
theorem mcp_initialize_lacks_protocol_info :
    hasProtocolVersion (mcpInitializeResult ["browser_navigate"]) = false ∧
      mcpInitializeResult ["browser_navigate"] ≠
        elevenLabsInitializeResult 0 :=
  ⟨rfl, fun h => nomatch h⟩

/-- C4 (amended). On `/api/elevenlabs-tools`, initialize returns the same
fixed payload — protocol version, capabilities object and server identity —
regardless of prior state and of how many times initialize has been called;
on `/mcp`, a POST initialize instead returns the formatted tool list, which
contains none of those fields and never equals the fixed payload. -/
theorem initialize_payload_amended :
    (∀ c1 c2 : Nat,
        elevenLabsInitializeResult c1 = elevenLabsInitializeResult c2) ∧
    (∀ c : Nat, hasProtocolVersion (elevenLabsInitializeResult c) = true) ∧
    (∀ tools : List String,
        hasProtocolVersion (mcpInitializeResult tools) = false) ∧
    (∀ (tools : List String) (c : Nat),
        mcpInitializeResult tools ≠ elevenLabsInitializeResult c) :=
  ⟨fun _ _ => rfl, fun _ => rfl, fun _ => rfl, fun _ _ h => nomatch h⟩

/-- C5 (counterexample). An unknown method on `POST /api/mcp` is answered
with a JSON-RPC error whose code is `-32603` — the reserved
internal/dispatch-failure code itself, not a distinct one — while the same
method on `POST /api/elevenlabs-tools` is not answered with an error at
all but with the clientTools fallback success payload. -/
theorem unknown_method_internal_code :
    apiMcpDispatch "resources/list" =
        .rpcError internalErrorCode "Unknown MCP method: resources/list" ∧
      internalErrorCode = -32603 ∧
      elevenLabsToolsDispatch "resources/list" = .fallbackClientTools := by
  decide

/-- C5 (amended). A method other than `tools/list` and `tools/call` on
`POST /api/mcp` is answered with a JSON-RPC error carrying the method name
in its message, but with code `-32603`, the reserved internal-failure code;
a method other than `initialize`, `tools/list` and `tools/call` on
`POST /api/elevenlabs-tools` falls through to the clientTools configuration
success response instead of an error. -/
theorem unknown_method_amended :
    (∀ m : String, m ≠ "tools/list" → m ≠ "tools/call" →
        apiMcpDispatch m =
          .rpcError internalErrorCode ("Unknown MCP method: " ++ m)) ∧
    (∀ m : String, m ≠ "initialize" → m ≠ "tools/list" → m ≠ "tools/call" →
        elevenLabsToolsDispatch m = .fallbackClientTools) := by
  constructor
  · intro m h1 h2
    simp [apiMcpDispatch, h1, h2, internalErrorCode]
  · intro m h1 h2 h3
    simp [elevenLabsToolsDispatch, h1, h2, h3]

/-- C5 (witness). The unknown method `resources/read` gets the internal
error code on `/api/mcp` and the fallback payload on
`/api/elevenlabs-tools`. -/
theorem unknown_method_amended_witness :
    apiMcpDispatch "resources/read" =
        .rpcError internalErrorCode ("Unknown MCP method: " ++
          "resources/read") ∧
      elevenLabsToolsDispatch "resources/read" = .fallbackClientTools :=
  ⟨unknown_method_amended.1 "resources/read" (by decide) (by decide),
    unknown_method_amended.2 "resources/read" (by decide) (by decide)
      (by decide)⟩

/-- C6. Every action handler that requires an existing page (click, type,
screenshot, extract_text, wait, scroll, get_page_info) obtains its page
through `currentTabOrDie` and fails with `NoActiveTab` on a context with no
tab; a non-navigate handler never changes the tab state; only the navigate
handler creates the initial tab, through `ensureTab`. -/
theorem page_handlers_fail_fast :
    (∀ (a : ElAction) (c : AutomationContext), a ≠ .navigate → c.tabs = [] →
        actionTabStep a c = .error .noActiveTab) ∧
    (∀ c : AutomationContext, c.tabs = [] →
        actionTabStep .navigate c = .ok (⟨[0]⟩, 0)) ∧
    (∀ (a : ElAction) (c : AutomationContext) (r : AutomationContext × Nat),
        a ≠ .navigate → actionTabStep a c = .ok r → r.1 = c) := by
  refine ⟨?_, ?_, ?_⟩
  · intro a c ha hc
    cases a <;>
      simp_all [actionTabStep, requirePage, currentTabOrDie, Except.map]
  · intro c hc
    simp [actionTabStep, ensureTab, hc]
  · intro a c r ha hr
    cases a <;>
      [skip; skip; skip; skip; skip; skip; skip; skip] <;>
      first
        | exact absurd rfl ha
        | (revert hr
           unfold actionTabStep requirePage currentTabOrDie
           cases c.tabs with
           | nil => intro hr; exact nomatch hr
           | cons t rest =>
             intro hr
             cases hr
             rfl)

/-- C6 (witness). On a context with no tab, the screenshot handler fails
with `NoActiveTab` and the navigate handler creates the initial tab. -/
theorem page_handlers_fail_fast_witness :
    actionTabStep .screenshot ⟨[]⟩ = .error .noActiveTab ∧
      actionTabStep .navigate ⟨[]⟩ = .ok (⟨[0]⟩, 0) :=
  ⟨page_handlers_fail_fast.1 .screenshot ⟨[]⟩ (by decide) rfl,
    page_handlers_fail_fast.2.1 ⟨[]⟩ rfl⟩

/-- C7. For every nonnegative requested duration `t` seconds, the timed
sleep of the wait handler lasts `min t 30` seconds (expressed in
milliseconds): the sleep is capped at a fixed 30-second maximum regardless
of the requested duration. -/
theorem wait_sleep_capped (t : ℚ) (ht : 0 ≤ t) :
    waitSleepMs t = 1000 * min t 30 := by
  unfold waitSleepMs
  by_cases h0 : t = 0
  · subst h0
    norm_num
  · rw [if_neg h0]
    rcases le_total t 30 with h | h
    · rw [min_eq_left h, min_eq_right (by linarith : t * 1000 ≤ 30000)]
      ring
    · rw [min_eq_right h, min_eq_left (by linarith : (30000 : ℚ) ≤ t * 1000)]
      norm_num

/-- C7 (witness). A requested duration of 45 seconds sleeps for
`min 45 30 = 30` seconds, that is 30000 milliseconds. -/
theorem wait_sleep_capped_witness :
    (0 : ℚ) ≤ 45 ∧ waitSleepMs 45 = 1000 * min 45 30 :=
  ⟨by norm_num, wait_sleep_capped 45 (by norm_num)⟩

/-- C8. A `tools/call` whose tool name is not registered is answered with a
structured JSON-RPC error object inside a 200 response — not a
transport-level failure — and leaves the handler state untouched: no
automation context is created or modified. -/
theorem unknown_tool_structured_error (registeredTools : List String)
    (name : String) (s : HandlerState)
    (h : name ∉ registeredTools) :
    toolsCallBranch registeredTools name s =
      (⟨200, true, some ("Tool " ++ name ++ " not found")⟩, s) := by
  simp [toolsCallBranch, h]

/-- C8 (witness). Calling the unregistered tool `nonexistent_tool` against
a handler that registers only `browser_navigate` yields the structured
error in a 200 reply and an unchanged fresh state. -/
theorem unknown_tool_structured_error_witness :
    "nonexistent_tool" ∉ ["browser_navigate"] ∧
      toolsCallBranch ["browser_navigate"] "nonexistent_tool" ⟨[], 0⟩ =
        (⟨200, true, some ("Tool " ++ "nonexistent_tool" ++ " not found")⟩,
          ⟨[], 0⟩) :=
  ⟨by decide,
    unknown_tool_structured_error ["browser_navigate"] "nonexistent_tool"
      ⟨[], 0⟩ (by decide)⟩

/-- C9 (counterexample). On a session whose first tab throws on close while
its second tab and its browser context would close cleanly, `closeSession`
closes no tab at all — in particular not the second tab — and never closes
the browsing environment (the throw aborts the whole try block); it only
logs the error and removes the registry entry.  This contradicts the claim
that `closeSession` closes every tab and then the browsing environment. -/
theorem close_session_abort_on_tab_failure :
    (closeSession "s1" [("s1", ctxFailingTab)]).2 =
        (⟨[], false, true⟩ : CloseReport) ∧
      ctxFailingTab.tabs.map TabModel.id = [0, 1] ∧
      lookupAssoc (closeSession "s1" [("s1", ctxFailingTab)]).1 "s1" =
        none := by
  decide

/-- C9 (amended). `closeSession` always removes the registry entry of the
session, a second call with the same identifier is a no-op, and failures
while closing are caught and logged, never raised; it closes every tab and
then the browsing environment only when no close throws — the first
throwing close aborts the remaining tab closes and the environment close. -/
theorem close_session_amended :
    (∀ (sid : String) (m : List (String × ContextModel)),
        lookupAssoc (closeSession sid m).1 sid = none) ∧
    (∀ (sid : String) (m : List (String × ContextModel)),
        closeSession sid (closeSession sid m).1 =
          ((closeSession sid m).1, ⟨[], false, false⟩)) ∧
    (∀ (sid : String) (m : List (String × ContextModel))
        (ctx : ContextModel),
        lookupAssoc m sid = some ctx →
        (∀ t ∈ ctx.tabs, t.closeFails = false) →
        ctx.hasBrowserCtx = true → ctx.browserCloseFails = false →
        (closeSession sid m).2 =
          ⟨ctx.tabs.map TabModel.id, true, false⟩) := by
  have hgone : ∀ (sid : String) (m : List (String × ContextModel)),
      lookupAssoc (closeSession sid m).1 sid = none := by
    intro sid m
    unfold closeSession
    cases h : lookupAssoc m sid with
    | none => exact h
    | some ctx => exact lookupAssoc_removeAssoc m sid
  have hnone : ∀ (sid : String) (m : List (String × ContextModel)),
      lookupAssoc m sid = none →
      closeSession sid m = (m, ⟨[], false, false⟩) := by
    intro sid m h
    unfold closeSession
    rw [h]
  refine ⟨hgone, ?_, ?_⟩
  · intro sid m
    exact hnone sid (closeSession sid m).1 (hgone sid m)
  · intro sid m ctx hctx htabs henv hfail
    have hred : closeSession sid m =
        (removeAssoc m sid, closeContextTry ctx) := by
      unfold closeSession
      rw [hctx]
    rw [hred]
    show closeContextTry ctx = _
    unfold closeContextTry
    rw [closeTabsLoop_noFail ctx.tabs htabs]
    simp [henv, hfail]

/-- C9 (witness). Closing a registered session whose single tab and browser
context close cleanly removes the entry and reports every tab and the
environment closed. -/
theorem close_session_amended_witness :
    lookupAssoc (closeSession "s1" [("s1", ctxCleanClose)]).1 "s1" = none ∧
      (closeSession "s1" [("s1", ctxCleanClose)]).2 =
        (⟨[0], true, false⟩ : CloseReport) :=
  ⟨close_session_amended.1 "s1" [("s1", ctxCleanClose)],
    close_session_amended.2.2 "s1" [("s1", ctxCleanClose)] ctxCleanClose
      rfl (by decide) rfl rfl⟩

end Mcp
